import Mathlib

/-!
Verification of the AGV telemetry simulator (`sim.py`).

Shallow embedding conventions:
* Python floats are modelled as exact rationals (`ℚ`); every claim under
  scrutiny is about order/range facts that are insensitive to the binary
  rounding of IEEE doubles.
* Randomness is explicit: each call site of the `random` module becomes a
  field of a draw structure (`InitDraws` for `AGVState.__init__`, `TickDraws`
  for `AGVState.tick`).  `random.uniform(a, b)` becomes a rational draw that
  range hypotheses constrain to `[a, b]`; `random.random()` a draw in
  `[0, 1)`; `random.choice(lst)` an arbitrary natural index reduced modulo
  the list length; `random.randint(a, b)` a natural draw in `[a, b]`.
* `requests.post` / `raise_for_status` in `bulk_index` are modelled by a
  per-tick network oracle: the transport either succeeds or raises, and a
  raise is an `Except.error` that propagates exactly as a Python exception
  does (no handler exists in `main`).
* Python's `round(x, n)` (banker's rounding on floats) is modelled by exact
  rational rounding to `n` decimal places; no claim depends on the
  tie-breaking rule, only on rendering being a fixed function of the state.
-/

/-- `YARD_BLOCKS` from sim.py. -/
def YARD_BLOCKS : List String := ["YB10", "YB11", "YB12"]

/-- `LANES_BY_BLOCK` from sim.py: the dict as a function, `[]` for absent keys. -/
def LANES_BY_BLOCK : String → List String
  | "YB10" => ["L41", "L42"]
  | "YB11" => ["L43", "L44"]
  | "YB12" => ["L45", "L46"]
  | _ => []

/-- `AGV_IDS` from sim.py (`AGV-01` .. `AGV-10`). -/
def AGV_IDS : List String :=
  (List.range 10).map (fun i => "AGV-0" ++ toString (i + 1))

/-- `random.choice(l)`: the draw is an arbitrary natural index, reduced modulo
the length of the list (Python raises on an empty list; the default is only
reached there). -/
def choice {α : Type} (l : List α) (i : ℕ) (d : α) : α :=
  l.getD (i % l.length) d

/-- The random draws consumed by `AGVState.__init__`. -/
structure InitDraws where
  blockIdx : ℕ
  laneIdx : ℕ
  posDraw : ℚ
  speedDraw : ℚ
  socDraw : ℚ
  jobDraw : ℕ
  loadIdx : ℕ
deriving Repr, DecidableEq

/-- The random draws a single `AGVState.tick` call may consume.  Draws on
branches not taken are simply unused, mirroring that `random` calls inside an
untaken `if` never happen. -/
structure TickDraws where
  speedDelta : ℚ
  jobDraw : ℕ
  flipDraw : ℚ
  reassignDraw : ℚ
  blockIdx : ℕ
  laneIdx : ℕ
  drainDraw : ℚ
  rechargeDraw : ℚ
  rechargeValue : ℚ
deriving Repr, DecidableEq

/-- Range constraints the `random` module guarantees for the draws of one
tick: `uniform(-1.0, 1.0)`, `randint(100000, 999999)`,
`random() ∈ [0, 1)`, `uniform(0.01, 0.05)`, `uniform(70, 100)`. -/
def TickDraws.Valid (d : TickDraws) : Prop :=
  -1 ≤ d.speedDelta ∧ d.speedDelta ≤ 1 ∧
  100000 ≤ d.jobDraw ∧ d.jobDraw ≤ 999999 ∧
  0 ≤ d.flipDraw ∧ d.flipDraw < 1 ∧
  0 ≤ d.reassignDraw ∧ d.reassignDraw < 1 ∧
  1/100 ≤ d.drainDraw ∧ d.drainDraw ≤ 1/20 ∧
  0 ≤ d.rechargeDraw ∧ d.rechargeDraw < 1 ∧
  70 ≤ d.rechargeValue ∧ d.rechargeValue ≤ 100

instance (d : TickDraws) : Decidable d.Valid := by
  unfold TickDraws.Valid
  infer_instance

/-- The mutable state of one simulated vehicle (`class AGVState`). -/
structure AGVState where
  agv_id : String
  yard_block : String
  lane_id : String
  position_m : ℚ
  speed_kph : ℚ
  soc_pct : ℚ
  job_id : String
  load_status : String
deriving Repr, DecidableEq

/-- `AGVState._new_job_id`: `f"JOB-{random.randint(100000, 999999)}"`. -/
def newJobId (n : ℕ) : String := "JOB-" ++ toString n

/-- `AGVState.__init__`, with the seven random draws made explicit. -/
def AGVState.init (agv_id : String) (d : InitDraws) : AGVState :=
  let yard_block := choice YARD_BLOCKS d.blockIdx "YB10"
  { agv_id := agv_id
    yard_block := yard_block
    lane_id := choice (LANES_BY_BLOCK yard_block) d.laneIdx "L41"
    position_m := d.posDraw
    speed_kph := d.speedDraw
    soc_pct := d.socDraw
    job_id := newJobId d.jobDraw
    load_status := choice ["EMPTY", "LOADED"] d.loadIdx "EMPTY" }

/-- Stage 1 of `tick`: drift the speed by the uniform delta and clamp,
`self.speed_kph = max(4.0, min(self.speed_kph + delta, 18.0))`. -/
def AGVState.driftSpeed (s : AGVState) (delta : ℚ) : AGVState :=
  { s with speed_kph := max 4 (min (s.speed_kph + delta) 18) }

/-- Stage 2 of `tick`: move along the lane,
`self.position_m += (self.speed_kph * 1000.0 / 3600.0) * dt_sec`. -/
def AGVState.move (s : AGVState) (dt_sec : ℚ) : AGVState :=
  { s with position_m := s.position_m + s.speed_kph * 1000 / 3600 * dt_sec }

/-- Inside the lane-completion branch: `if random.random() < 0.5` flip the
load status between `EMPTY` and `LOADED`. -/
def AGVState.flipLoadMaybe (s : AGVState) (d : TickDraws) : AGVState :=
  if d.flipDraw < 1/2 then
    { s with load_status := if s.load_status = "EMPTY" then "LOADED" else "EMPTY" }
  else s

/-- Inside the lane-completion branch: `if random.random() < 0.3` re-pick the
yard block and then a lane of that block. -/
def AGVState.reassignMaybe (s : AGVState) (d : TickDraws) : AGVState :=
  if d.reassignDraw < 3/10 then
    let yard_block := choice YARD_BLOCKS d.blockIdx "YB10"
    { s with yard_block := yard_block
             lane_id := choice (LANES_BY_BLOCK yard_block) d.laneIdx "L41" }
  else s

/-- Stage 3 of `tick`: `if self.position_m >= 1000.0` reset the position,
draw a new job id, maybe flip the load status, maybe reassign block/lane. -/
def AGVState.laneComplete (s : AGVState) (d : TickDraws) : AGVState :=
  if s.position_m ≥ 1000 then
    AGVState.reassignMaybe
      (AGVState.flipLoadMaybe
        { s with position_m := 0, job_id := newJobId d.jobDraw } d) d
  else s

/-- Stage 4 of `tick`: unconditional battery drain
`self.soc_pct -= uniform(0.01, 0.05) * dt_sec`, then if the charge is below
30 and `random.random() < 0.01`, jump to `uniform(70, 100)`. -/
def AGVState.drainRecharge (s : AGVState) (dt_sec : ℚ) (d : TickDraws) : AGVState :=
  let s := { s with soc_pct := s.soc_pct - d.drainDraw * dt_sec }
  if s.soc_pct < 30 then
    if d.rechargeDraw < 1/100 then { s with soc_pct := d.rechargeValue } else s
  else s

/-- `AGVState.tick(dt_sec)`: the four stages of the source method in order. -/
def AGVState.tick (s : AGVState) (dt_sec : ℚ) (d : TickDraws) : AGVState :=
  AGVState.drainRecharge
    (AGVState.laneComplete ((s.driftSpeed d.speedDelta).move dt_sec) d) dt_sec d

/-- A sequence of ticks: each element carries its `dt_sec` and its draws. -/
def runTicks (s : AGVState) (steps : List (ℚ × TickDraws)) : AGVState :=
  steps.foldl (fun a p => a.tick p.1 p.2) s

/-- Round to two decimal places (Python `round(x, 2)`). -/
def round2 (x : ℚ) : ℚ := (round (x * 100) : ℤ) / 100

/-- Round to one decimal place (Python `round(x, 1)`). -/
def round1 (x : ℚ) : ℚ := (round (x * 10) : ℤ) / 10

/-- One snapshot record as built by `AGVState.to_doc`. -/
structure Doc where
  timestamp : String
  agv_id : String
  yard_block : String
  lane_id : String
  position_m : ℚ
  speed_kph : ℚ
  soc_pct : ℚ
  job_id : String
  load_status : String
  mode : String
deriving Repr, DecidableEq

/-- `AGVState.to_doc`: render the current state; `now` stands for
`datetime.now(timezone.utc).isoformat()`. -/
def AGVState.to_doc (s : AGVState) (now : String) : Doc :=
  { timestamp := now
    agv_id := s.agv_id
    yard_block := s.yard_block
    lane_id := s.lane_id
    position_m := round2 s.position_m
    speed_kph := round2 s.speed_kph
    soc_pct := round1 s.soc_pct
    job_id := s.job_id
    load_status := s.load_status
    mode := "BAU" }

/-- Outcome of the HTTP POST inside `bulk_index` for one batch. -/
inductive NetResponse
  | success
  | failure
deriving Repr, DecidableEq

/-- `bulk_index(index, docs)`: an empty batch returns without posting;
otherwise `resp.raise_for_status()` raises on a non-success response, which
we model as `Except.error`. -/
def bulk_index (docs : List Doc) (resp : NetResponse) : Except String Unit :=
  if docs.isEmpty then Except.ok ()
  else
    match resp with
    | NetResponse.success => Except.ok ()
    | NetResponse.failure => Except.error "HTTPError"

/-- One pass of the `for agv in agvs` body in `main`: tick vehicle `i` with
its draws, then append its rendered doc; vehicles are visited in list
order. -/
def tickFleetAux (dt : ℚ) (draws : ℕ → TickDraws) (now : String) :
    ℕ → List AGVState → List AGVState × List Doc
  | _, [] => ([], [])
  | i, s :: rest =>
    let s2 := s.tick dt (draws i)
    let r := tickFleetAux dt draws now (i + 1) rest
    (s2 :: r.1, s2.to_doc now :: r.2)

/-- The per-tick loop body of `main`: advance every vehicle once (in fleet
order) and collect one doc per vehicle, in the same order. -/
def tickFleet (dt : ℚ) (draws : ℕ → TickDraws) (now : String)
    (fleet : List AGVState) : List AGVState × List Doc :=
  tickFleetAux dt draws now 0 fleet

/-- Observable outcome of a run of `main`'s while-loop: the final fleet
state, the value of the `tick` counter, every batch handed to `bulk_index`,
and the uncaught exception if one terminated the loop. -/
structure SimResult where
  fleet : List AGVState
  ticks : ℕ
  sent : List (List Doc)
  err : Option String
deriving Repr, DecidableEq

/-- The while-loop of `main`.  `n` is the number of iterations the monotonic
clock still admits; `t` is the `tick` counter; `draws t i` are the draws
vehicle `i` consumes on iteration `t`; `net t` is the transport outcome of
iteration `t`; `now t` its capture timestamp.  `bulk_index` is called with no
surrounding handler, so an `Except.error` ends the loop at once: the counter
is not incremented and no further iteration runs. -/
def simLoop (dt : ℚ) (draws : ℕ → ℕ → TickDraws) (net : ℕ → NetResponse)
    (now : ℕ → String) :
    ℕ → ℕ → List (List Doc) → List AGVState → SimResult
  | 0, t, sent, fleet => { fleet := fleet, ticks := t, sent := sent, err := none }
  | Nat.succ n, t, sent, fleet =>
    let r := tickFleet dt (draws t) (now t) fleet
    match bulk_index r.2 (net t) with
    | Except.error e =>
      { fleet := r.1, ticks := t, sent := sent ++ [r.2], err := some e }
    | Except.ok _ => simLoop dt draws net now n (t + 1) (sent ++ [r.2]) r.1

/-- Erase the capture timestamp of a doc (the one field excluded when
comparing the batches of two runs). -/
def stripTs (doc : Doc) : Doc := { doc with timestamp := "" }

/-- Erase the timestamps of one batch. -/
def stripBatch (b : List Doc) : List Doc := b.map stripTs

/-- The lane-membership invariant of the spec:
`lane_id ∈ LANES_BY_BLOCK[yard_block]`. -/
def LaneInv (s : AGVState) : Prop := s.lane_id ∈ LANES_BY_BLOCK s.yard_block

instance (s : AGVState) : Decidable (LaneInv s) := by
  unfold LaneInv
  infer_instance

/-! ### Projection lemmas for the tick stages -/

@[simp] theorem driftSpeed_agv_id (s : AGVState) (x : ℚ) :
    (s.driftSpeed x).agv_id = s.agv_id := rfl

@[simp] theorem driftSpeed_yard_block (s : AGVState) (x : ℚ) :
    (s.driftSpeed x).yard_block = s.yard_block := rfl

@[simp] theorem driftSpeed_lane_id (s : AGVState) (x : ℚ) :
    (s.driftSpeed x).lane_id = s.lane_id := rfl

@[simp] theorem driftSpeed_position_m (s : AGVState) (x : ℚ) :
    (s.driftSpeed x).position_m = s.position_m := rfl

@[simp] theorem driftSpeed_soc_pct (s : AGVState) (x : ℚ) :
    (s.driftSpeed x).soc_pct = s.soc_pct := rfl

@[simp] theorem driftSpeed_job_id (s : AGVState) (x : ℚ) :
    (s.driftSpeed x).job_id = s.job_id := rfl

@[simp] theorem driftSpeed_load_status (s : AGVState) (x : ℚ) :
    (s.driftSpeed x).load_status = s.load_status := rfl

@[simp] theorem driftSpeed_speed_kph (s : AGVState) (x : ℚ) :
    (s.driftSpeed x).speed_kph = max 4 (min (s.speed_kph + x) 18) := rfl

@[simp] theorem move_agv_id (s : AGVState) (dt : ℚ) :
    (s.move dt).agv_id = s.agv_id := rfl

@[simp] theorem move_yard_block (s : AGVState) (dt : ℚ) :
    (s.move dt).yard_block = s.yard_block := rfl

@[simp] theorem move_lane_id (s : AGVState) (dt : ℚ) :
    (s.move dt).lane_id = s.lane_id := rfl

@[simp] theorem move_speed_kph (s : AGVState) (dt : ℚ) :
    (s.move dt).speed_kph = s.speed_kph := rfl

@[simp] theorem move_soc_pct (s : AGVState) (dt : ℚ) :
    (s.move dt).soc_pct = s.soc_pct := rfl

@[simp] theorem move_job_id (s : AGVState) (dt : ℚ) :
    (s.move dt).job_id = s.job_id := rfl

@[simp] theorem move_load_status (s : AGVState) (dt : ℚ) :
    (s.move dt).load_status = s.load_status := rfl

@[simp] theorem move_position_m (s : AGVState) (dt : ℚ) :
    (s.move dt).position_m = s.position_m + s.speed_kph * 1000 / 3600 * dt := rfl

@[simp] theorem flipLoadMaybe_agv_id (s : AGVState) (d : TickDraws) :
    (s.flipLoadMaybe d).agv_id = s.agv_id := by
  unfold AGVState.flipLoadMaybe; split <;> rfl

@[simp] theorem flipLoadMaybe_yard_block (s : AGVState) (d : TickDraws) :
    (s.flipLoadMaybe d).yard_block = s.yard_block := by
  unfold AGVState.flipLoadMaybe; split <;> rfl

@[simp] theorem flipLoadMaybe_lane_id (s : AGVState) (d : TickDraws) :
    (s.flipLoadMaybe d).lane_id = s.lane_id := by
  unfold AGVState.flipLoadMaybe; split <;> rfl

@[simp] theorem flipLoadMaybe_position_m (s : AGVState) (d : TickDraws) :
    (s.flipLoadMaybe d).position_m = s.position_m := by
  unfold AGVState.flipLoadMaybe; split <;> rfl

@[simp] theorem flipLoadMaybe_speed_kph (s : AGVState) (d : TickDraws) :
    (s.flipLoadMaybe d).speed_kph = s.speed_kph := by
  unfold AGVState.flipLoadMaybe; split <;> rfl

@[simp] theorem flipLoadMaybe_soc_pct (s : AGVState) (d : TickDraws) :
    (s.flipLoadMaybe d).soc_pct = s.soc_pct := by
  unfold AGVState.flipLoadMaybe; split <;> rfl

@[simp] theorem flipLoadMaybe_job_id (s : AGVState) (d : TickDraws) :
    (s.flipLoadMaybe d).job_id = s.job_id := by
  unfold AGVState.flipLoadMaybe; split <;> rfl

@[simp] theorem reassignMaybe_agv_id (s : AGVState) (d : TickDraws) :
    (s.reassignMaybe d).agv_id = s.agv_id := by
  unfold AGVState.reassignMaybe; split <;> rfl

@[simp] theorem reassignMaybe_position_m (s : AGVState) (d : TickDraws) :
    (s.reassignMaybe d).position_m = s.position_m := by
  unfold AGVState.reassignMaybe; split <;> rfl

@[simp] theorem reassignMaybe_speed_kph (s : AGVState) (d : TickDraws) :
    (s.reassignMaybe d).speed_kph = s.speed_kph := by
  unfold AGVState.reassignMaybe; split <;> rfl

@[simp] theorem reassignMaybe_soc_pct (s : AGVState) (d : TickDraws) :
    (s.reassignMaybe d).soc_pct = s.soc_pct := by
  unfold AGVState.reassignMaybe; split <;> rfl

@[simp] theorem reassignMaybe_job_id (s : AGVState) (d : TickDraws) :
    (s.reassignMaybe d).job_id = s.job_id := by
  unfold AGVState.reassignMaybe; split <;> rfl

@[simp] theorem reassignMaybe_load_status (s : AGVState) (d : TickDraws) :
    (s.reassignMaybe d).load_status = s.load_status := by
  unfold AGVState.reassignMaybe; split <;> rfl

@[simp] theorem laneComplete_agv_id (s : AGVState) (d : TickDraws) :
    (s.laneComplete d).agv_id = s.agv_id := by
  unfold AGVState.laneComplete; split <;> simp

@[simp] theorem laneComplete_speed_kph (s : AGVState) (d : TickDraws) :
    (s.laneComplete d).speed_kph = s.speed_kph := by
  unfold AGVState.laneComplete; split <;> simp

@[simp] theorem laneComplete_soc_pct (s : AGVState) (d : TickDraws) :
    (s.laneComplete d).soc_pct = s.soc_pct := by
  unfold AGVState.laneComplete; split <;> simp

theorem laneComplete_position_m (s : AGVState) (d : TickDraws) :
    (s.laneComplete d).position_m =
      if s.position_m ≥ 1000 then 0 else s.position_m := by
  unfold AGVState.laneComplete; split <;> simp

theorem laneComplete_job_id (s : AGVState) (d : TickDraws) :
    (s.laneComplete d).job_id =
      if s.position_m ≥ 1000 then newJobId d.jobDraw else s.job_id := by
  unfold AGVState.laneComplete; split <;> simp

@[simp] theorem drainRecharge_agv_id (s : AGVState) (dt : ℚ) (d : TickDraws) :
    (s.drainRecharge dt d).agv_id = s.agv_id := by
  unfold AGVState.drainRecharge; dsimp only; split_ifs <;> rfl

@[simp] theorem drainRecharge_yard_block (s : AGVState) (dt : ℚ) (d : TickDraws) :
    (s.drainRecharge dt d).yard_block = s.yard_block := by
  unfold AGVState.drainRecharge; dsimp only; split_ifs <;> rfl

@[simp] theorem drainRecharge_lane_id (s : AGVState) (dt : ℚ) (d : TickDraws) :
    (s.drainRecharge dt d).lane_id = s.lane_id := by
  unfold AGVState.drainRecharge; dsimp only; split_ifs <;> rfl

@[simp] theorem drainRecharge_position_m (s : AGVState) (dt : ℚ) (d : TickDraws) :
    (s.drainRecharge dt d).position_m = s.position_m := by
  unfold AGVState.drainRecharge; dsimp only; split_ifs <;> rfl

@[simp] theorem drainRecharge_speed_kph (s : AGVState) (dt : ℚ) (d : TickDraws) :
    (s.drainRecharge dt d).speed_kph = s.speed_kph := by
  unfold AGVState.drainRecharge; dsimp only; split_ifs <;> rfl

@[simp] theorem drainRecharge_job_id (s : AGVState) (dt : ℚ) (d : TickDraws) :
    (s.drainRecharge dt d).job_id = s.job_id := by
  unfold AGVState.drainRecharge; dsimp only; split_ifs <;> rfl

@[simp] theorem drainRecharge_load_status (s : AGVState) (dt : ℚ) (d : TickDraws) :
    (s.drainRecharge dt d).load_status = s.load_status := by
  unfold AGVState.drainRecharge; dsimp only; split_ifs <;> rfl

theorem drainRecharge_soc_pct (s : AGVState) (dt : ℚ) (d : TickDraws) :
    (s.drainRecharge dt d).soc_pct =
      if s.soc_pct - d.drainDraw * dt < 30 then
        (if d.rechargeDraw < 1/100 then d.rechargeValue
         else s.soc_pct - d.drainDraw * dt)
      else s.soc_pct - d.drainDraw * dt := by
  unfold AGVState.drainRecharge; dsimp only; split_ifs <;> rfl

/-! ### Characterizations of one tick -/

theorem tick_agv_id (s : AGVState) (dt : ℚ) (d : TickDraws) :
    (s.tick dt d).agv_id = s.agv_id := by
  simp [AGVState.tick]

theorem tick_speed_kph (s : AGVState) (dt : ℚ) (d : TickDraws) :
    (s.tick dt d).speed_kph = max 4 (min (s.speed_kph + d.speedDelta) 18) := by
  simp [AGVState.tick]

theorem tick_position_m (s : AGVState) (dt : ℚ) (d : TickDraws) :
    (s.tick dt d).position_m =
      if s.position_m + max 4 (min (s.speed_kph + d.speedDelta) 18) * 1000 / 3600 * dt ≥ 1000
      then 0
      else s.position_m + max 4 (min (s.speed_kph + d.speedDelta) 18) * 1000 / 3600 * dt := by
  simp [AGVState.tick, laneComplete_position_m]

theorem tick_job_id (s : AGVState) (dt : ℚ) (d : TickDraws) :
    (s.tick dt d).job_id =
      if s.position_m + max 4 (min (s.speed_kph + d.speedDelta) 18) * 1000 / 3600 * dt ≥ 1000
      then newJobId d.jobDraw
      else s.job_id := by
  simp [AGVState.tick, laneComplete_job_id]

theorem tick_soc_pct (s : AGVState) (dt : ℚ) (d : TickDraws) :
    (s.tick dt d).soc_pct =
      if s.soc_pct - d.drainDraw * dt < 30 then
        (if d.rechargeDraw < 1/100 then d.rechargeValue
         else s.soc_pct - d.drainDraw * dt)
      else s.soc_pct - d.drainDraw * dt := by
  simp [AGVState.tick, drainRecharge_soc_pct]

/-! ### The random-choice helper picks a member of the list -/

theorem choice_mem {α : Type} (l : List α) (i : ℕ) (d : α) (h : l ≠ []) :
    choice l i d ∈ l := by
  have hlen : i % l.length < l.length :=
    Nat.mod_lt _ (List.length_pos.mpr h)
  rw [choice, List.getD_eq_getElem l d hlen]
  exact List.getElem_mem hlen

theorem lanes_of_block_ne_nil (b : String) (hb : b ∈ YARD_BLOCKS) :
    LANES_BY_BLOCK b ≠ [] := by
  simp only [YARD_BLOCKS, List.mem_cons, List.mem_singleton] at hb
  rcases hb with h | h | h | h <;> first
    | (subst h; simp [LANES_BY_BLOCK])
    | exact absurd h (by simp)

theorem pick_lane_mem (i j : ℕ) :
    choice (LANES_BY_BLOCK (choice YARD_BLOCKS i "YB10")) j "L41" ∈
      LANES_BY_BLOCK (choice YARD_BLOCKS i "YB10") := by
  apply choice_mem
  exact lanes_of_block_ne_nil _ (choice_mem YARD_BLOCKS i "YB10" (by simp [YARD_BLOCKS]))

/-! ### Lane-membership invariant lemmas -/

theorem init_laneInv (agv_id : String) (d : InitDraws) :
    LaneInv (AGVState.init agv_id d) := by
  unfold LaneInv AGVState.init
  exact pick_lane_mem d.blockIdx d.laneIdx

theorem reassignMaybe_laneInv (s : AGVState) (d : TickDraws) (h : LaneInv s) :
    LaneInv (s.reassignMaybe d) := by
  unfold LaneInv AGVState.reassignMaybe at *
  split
  · exact pick_lane_mem d.blockIdx d.laneIdx
  · exact h

theorem flipLoadMaybe_laneInv (s : AGVState) (d : TickDraws) (h : LaneInv s) :
    LaneInv (s.flipLoadMaybe d) := by
  unfold LaneInv at *
  simp [h]

theorem laneComplete_laneInv (s : AGVState) (d : TickDraws) (h : LaneInv s) :
    LaneInv (s.laneComplete d) := by
  unfold AGVState.laneComplete
  split
  · apply reassignMaybe_laneInv
    apply flipLoadMaybe_laneInv
    exact h
  · exact h

theorem tick_laneInv (s : AGVState) (dt : ℚ) (d : TickDraws) (h : LaneInv s) :
    LaneInv (s.tick dt d) := by
  unfold AGVState.tick
  have h2 : LaneInv ((s.driftSpeed d.speedDelta).move dt) := h
  have h3 := laneComplete_laneInv _ d h2
  unfold LaneInv at *
  simpa using h3

/-! ### Generic preservation over a sequence of ticks -/

theorem runTicks_nil (s : AGVState) : runTicks s [] = s := rfl

theorem runTicks_cons (s : AGVState) (p : ℚ × TickDraws) (rest : List (ℚ × TickDraws)) :
    runTicks s (p :: rest) = runTicks (s.tick p.1 p.2) rest := rfl

theorem runTicks_preserves (P : AGVState → Prop) (Q : ℚ × TickDraws → Prop)
    (hstep : ∀ s dt d, P s → Q (dt, d) → P (s.tick dt d)) :
    ∀ steps : List (ℚ × TickDraws), (∀ p ∈ steps, Q p) → ∀ s, P s → P (runTicks s steps)
  | [], _, s, hs => hs
  | p :: rest, hq, s, hs => by
    rw [runTicks_cons]
    exact runTicks_preserves P Q hstep rest
      (fun q hqmem => hq q (List.mem_cons_of_mem _ hqmem))
      _ (hstep s p.1 p.2 hs (hq p (List.mem_cons_self _ _)))

@[simp] theorem init_position_m (agv_id : String) (d : InitDraws) :
    (AGVState.init agv_id d).position_m = d.posDraw := rfl

@[simp] theorem init_speed_kph (agv_id : String) (d : InitDraws) :
    (AGVState.init agv_id d).speed_kph = d.speedDraw := rfl

@[simp] theorem init_soc_pct (agv_id : String) (d : InitDraws) :
    (AGVState.init agv_id d).soc_pct = d.socDraw := rfl

/-- A concrete vehicle state used to instantiate theorems with hypotheses. -/
def sWit : AGVState :=
  { agv_id := "AGV-01", yard_block := "YB10", lane_id := "L41",
    position_m := 0, speed_kph := 10, soc_pct := 80,
    job_id := newJobId 123456, load_status := "EMPTY" }

/-- A concrete draw record used to instantiate theorems with hypotheses. -/
def dWit : TickDraws :=
  { speedDelta := 0, jobDraw := 111111, flipDraw := 1/2, reassignDraw := 1/2,
    blockIdx := 0, laneIdx := 0, drainDraw := 1/100, rechargeDraw := 1/2,
    rechargeValue := 80 }

/-- C4: a vehicle created with the BAU initial speed draw (`uniform(8, 14)`)
satisfies `4 ≤ speed_kph ≤ 18` at creation and after every sequence of
ticks, whatever the `dt` values and draws of those ticks: every tick clamps
the drifted speed to `[4, 18]`. -/
theorem speed_bound_invariant (agv_id : String) (di : InitDraws)
    (h8 : 8 ≤ di.speedDraw) (h14 : di.speedDraw ≤ 14)
    (steps : List (ℚ × TickDraws)) :
    4 ≤ (runTicks (AGVState.init agv_id di) steps).speed_kph ∧
    (runTicks (AGVState.init agv_id di) steps).speed_kph ≤ 18 := by
  apply runTicks_preserves (fun s => 4 ≤ s.speed_kph ∧ s.speed_kph ≤ 18)
    (fun _ => True)
  · intro s dt d _ _
    rw [tick_speed_kph]
    exact ⟨le_max_left _ _, max_le (by norm_num) (min_le_right _ _)⟩
  · intro p _; trivial
  · rw [init_speed_kph]
    exact ⟨by linarith, by linarith⟩

/-- Witness for C4 at a concrete initial draw and the empty tick sequence. -/
theorem speed_bound_invariant_witness :
    4 ≤ (runTicks (AGVState.init "AGV-01" ⟨0, 0, 0, 10, 80, 123456, 0⟩) []).speed_kph ∧
    (runTicks (AGVState.init "AGV-01" ⟨0, 0, 0, 10, 80, 123456, 0⟩) []).speed_kph ≤ 18 :=
  speed_bound_invariant "AGV-01" ⟨0, 0, 0, 10, 80, 123456, 0⟩
    (by norm_num) (by norm_num) []

/-- C5: if a vehicle's position lies in `[0, 1000)` before a tick then, for
every `dt ≥ 0` and every draws, it lies in `[0, 1000)` after the tick: the
clamped speed is positive, so the moved position stays `≥ 0`, and the
lane-completion branch resets any position `≥ 1000` to `0`. -/
theorem position_bound_invariant (s : AGVState) (dt : ℚ) (d : TickDraws)
    (h0 : 0 ≤ s.position_m) (h1 : s.position_m < 1000) (hdt : 0 ≤ dt) :
    0 ≤ (s.tick dt d).position_m ∧ (s.tick dt d).position_m < 1000 := by
  rw [tick_position_m]
  have hv4 : (4 : ℚ) ≤ max 4 (min (s.speed_kph + d.speedDelta) 18) := le_max_left _ _
  have hvpos : (0 : ℚ) < max 4 (min (s.speed_kph + d.speedDelta) 18) := by linarith
  have hmove : 0 ≤ max 4 (min (s.speed_kph + d.speedDelta) 18) * 1000 / 3600 * dt := by
    positivity
  split
  · exact ⟨le_refl 0, by norm_num⟩
  · next hlt =>
      push_neg at hlt
      exact ⟨by linarith, hlt⟩

/-- Witness for C5 at a concrete state, `dt = 1` and concrete draws. -/
theorem position_bound_invariant_witness :
    0 ≤ (sWit.tick 1 dWit).position_m ∧ (sWit.tick 1 dWit).position_m < 1000 :=
  position_bound_invariant sWit 1 dWit
    (by norm_num [sWit]) (by norm_num [sWit]) (by norm_num)

/-- C6: at creation and after every sequence of ticks — whether or not the
block/lane reassignment fires — the vehicle's lane belongs to its current
yard block's lane set, `lane_id ∈ LANES_BY_BLOCK[yard_block]`. -/
theorem lane_membership_invariant (agv_id : String) (di : InitDraws)
    (steps : List (ℚ × TickDraws)) :
    LaneInv (runTicks (AGVState.init agv_id di) steps) := by
  apply runTicks_preserves LaneInv (fun _ => True)
  · intro s dt d h _
    exact tick_laneInv s dt d h
  · intro p _; trivial
  · exact init_laneInv agv_id di

/-- C10: on a tick with `dt > 0` whose lane-completion branch does not fire
(the moved position stays below 1000), the position strictly increases and
the displacement lies between `(4 * 1000 / 3600) * dt` and
`(18 * 1000 / 3600) * dt` metres, because the clamped speed lies in
`[4, 18]` kph and is in particular strictly positive. -/
theorem displacement_bounds (s : AGVState) (dt : ℚ) (d : TickDraws)
    (hdt : 0 < dt)
    (hnofire : s.position_m +
      max 4 (min (s.speed_kph + d.speedDelta) 18) * 1000 / 3600 * dt < 1000) :
    s.position_m < (s.tick dt d).position_m ∧
    4 * 1000 / 3600 * dt ≤ (s.tick dt d).position_m - s.position_m ∧
    (s.tick dt d).position_m - s.position_m ≤ 18 * 1000 / 3600 * dt := by
  rw [tick_position_m, if_neg (not_le.mpr hnofire)]
  have hv4 : (4 : ℚ) ≤ max 4 (min (s.speed_kph + d.speedDelta) 18) := le_max_left _ _
  have hv18 : max 4 (min (s.speed_kph + d.speedDelta) 18) ≤ 18 :=
    max_le (by norm_num) (min_le_right _ _)
  have hlow := mul_le_mul_of_nonneg_right hv4 (le_of_lt hdt)
  have hhigh := mul_le_mul_of_nonneg_right hv18 (le_of_lt hdt)
  refine ⟨by nlinarith, by nlinarith, by nlinarith⟩

/-- Witness for C10: vehicle at position 0 with speed 10, `dt = 1`. -/
theorem displacement_bounds_witness :
    sWit.position_m < (sWit.tick 1 dWit).position_m ∧
    4 * 1000 / 3600 * 1 ≤ (sWit.tick 1 dWit).position_m - sWit.position_m ∧
    (sWit.tick 1 dWit).position_m - sWit.position_m ≤ 18 * 1000 / 3600 * 1 :=
  displacement_bounds sWit 1 dWit (by norm_num)
    (by norm_num [sWit, dWit, min_def, max_def])

/-- Concrete vehicle used for the C2 refutation: one metre from the lane end,
current job id drawn from 123456. -/
def sJob : AGVState := { sWit with position_m := 999 }

/-- Draws whose fresh job number repeats the number behind `sJob`'s job id. -/
def dSame : TickDraws := { dWit with jobDraw := 123456 }

/-- C2 as stated is false: a tick that crosses the lane end resets the
position to 0 and redraws the job id, but `random.randint(100000, 999999)`
may redraw the very number of the pre-tick job id, in which case the job id
does not differ.  Concretely: position 999, speed 10, `dt = 1` crosses the
end, and the fresh draw 123456 reproduces job id `JOB-123456`. -/
theorem lane_reset_jobid_counterexample :
    dSame.Valid ∧
    sJob.position_m < 1000 ∧
    1000 ≤ sJob.position_m +
      max 4 (min (sJob.speed_kph + dSame.speedDelta) 18) * 1000 / 3600 * 1 ∧
    (sJob.tick 1 dSame).position_m = 0 ∧
    (sJob.tick 1 dSame).job_id = sJob.job_id := by
  have hcross : (1000 : ℚ) ≤ sJob.position_m +
      max 4 (min (sJob.speed_kph + dSame.speedDelta) 18) * 1000 / 3600 * 1 := by
    norm_num [sJob, sWit, dSame, dWit, min_def, max_def]
  refine ⟨?_, ?_, hcross, ?_, ?_⟩
  · norm_num [TickDraws.Valid, dSame, dWit]
  · norm_num [sJob, sWit]
  · rw [tick_position_m, if_pos hcross]
  · rw [tick_job_id, if_pos hcross]
    norm_num [sJob, sWit, dSame, dWit]

/-- C2 (amended): when a tick starting below the lane end crosses it, the
position is reset to 0 and the job id is replaced by the freshly drawn
`JOB-<randint>`; the new job id therefore differs from the pre-tick one
whenever the fresh draw does not reproduce it (which the source does not
rule out). -/
theorem lane_reset_behavior (s : AGVState) (dt : ℚ) (d : TickDraws)
    (hbefore : s.position_m < 1000)
    (hcross : 1000 ≤ s.position_m +
      max 4 (min (s.speed_kph + d.speedDelta) 18) * 1000 / 3600 * dt) :
    (s.tick dt d).position_m = 0 ∧
    (s.tick dt d).job_id = newJobId d.jobDraw ∧
    (newJobId d.jobDraw ≠ s.job_id → (s.tick dt d).job_id ≠ s.job_id) := by
  refine ⟨?_, ?_, ?_⟩
  · rw [tick_position_m, if_pos hcross]
  · rw [tick_job_id, if_pos hcross]
  · intro hne
    rw [tick_job_id, if_pos hcross]
    exact hne

/-- Witness for the amended C2: position 999, speed 10, `dt = 1`, fresh draw
111111 differing from the pre-tick 123456. -/
theorem lane_reset_behavior_witness :
    (sJob.tick 1 dWit).position_m = 0 ∧
    (sJob.tick 1 dWit).job_id = newJobId dWit.jobDraw ∧
    (sJob.tick 1 dWit).job_id ≠ sJob.job_id := by
  have h := lane_reset_behavior sJob 1 dWit
    (by norm_num [sJob, sWit])
    (by norm_num [sJob, sWit, dWit, min_def, max_def])
  exact ⟨h.1, h.2.1, h.2.2 (by decide)⟩

/-- Tick soc when the recharge draw does not fire: pure drain. -/
theorem tick_soc_noRecharge (s : AGVState) (dt : ℚ) (d : TickDraws)
    (h : ¬ d.rechargeDraw < 1/100) :
    (s.tick dt d).soc_pct = s.soc_pct - d.drainDraw * dt := by
  rw [tick_soc_pct]
  by_cases h1 : s.soc_pct - d.drainDraw * dt < 30
  · rw [if_pos h1, if_neg h]
  · rw [if_neg h1]

/-- C3: a vehicle entering a tick with charge 25 on which the recharge draw
fires (`random() < 0.01`) ends the tick with charge in `[70, 100]`; a
vehicle entering with charge 50 cannot trigger a recharge reset within that
tick, for any admissible draws, because one tick's drain
(`uniform(0.01, 0.05) * dt ≤ 20` for any `dt ≤ 400`, so in particular for the
default 1-second tick) cannot take the charge below the threshold 30 —
its charge is exactly `50 - drain * dt`. -/
theorem recharge_threshold (s : AGVState) (dt : ℚ) (d : TickDraws)
    (hd : d.Valid) :
    (s.soc_pct = 25 → 0 ≤ dt → d.rechargeDraw < 1/100 →
      70 ≤ (s.tick dt d).soc_pct ∧ (s.tick dt d).soc_pct ≤ 100) ∧
    (s.soc_pct = 50 → 0 ≤ dt → dt ≤ 400 →
      (s.tick dt d).soc_pct = 50 - d.drainDraw * dt) := by
  obtain ⟨_, _, _, _, _, _, _, _, hdrlo, hdrhi, _, _, hrv70, hrv100⟩ := hd
  constructor
  · intro h25 hdt hfire
    have hdrain : 0 ≤ d.drainDraw * dt := mul_nonneg (by linarith) hdt
    rw [tick_soc_pct, h25, if_pos (by linarith), if_pos hfire]
    exact ⟨hrv70, hrv100⟩
  · intro h50 hdt hdt400
    have hub := mul_le_mul_of_nonneg_right hdrhi hdt
    have : d.drainDraw * dt ≤ 20 := by linarith
    rw [tick_soc_pct, h50, if_neg (by push_neg; linarith)]

/-- Vehicle entering a tick with charge 25. -/
def s25 : AGVState := { sWit with soc_pct := 25 }

/-- Vehicle entering a tick with charge 50. -/
def s50 : AGVState := { sWit with soc_pct := 50 }

/-- Draws on which the recharge outcome fires (`random() = 0.005 < 0.01`). -/
def dFire : TickDraws := { dWit with rechargeDraw := 1/200 }

/-- Witness for C3 at charge 25 with the firing draw and at charge 50 with a
non-firing draw, both with `dt = 1`. -/
theorem recharge_threshold_witness :
    (70 ≤ (s25.tick 1 dFire).soc_pct ∧ (s25.tick 1 dFire).soc_pct ≤ 100) ∧
    (s50.tick 1 dWit).soc_pct = 50 - dWit.drainDraw * 1 :=
  ⟨(recharge_threshold s25 1 dFire
      (by norm_num [TickDraws.Valid, dFire, dWit])).1
      (by norm_num [s25, sWit]) (by norm_num) (by norm_num [dFire, dWit]),
   (recharge_threshold s50 1 dWit
      (by norm_num [TickDraws.Valid, dWit])).2
      (by norm_num [s50, sWit]) (by norm_num) (by norm_num)⟩

/-- A tick's draws with the maximal admissible drain, recharge not firing. -/
def dDrain : TickDraws := { dWit with drainDraw := 1/20 }

theorem runTicks_drainSteps (n : ℕ) :
    ∀ s : AGVState,
      (runTicks s (List.replicate n (1, dDrain))).soc_pct =
        s.soc_pct - n * (1/20) := by
  induction n with
  | zero => intro s; simp [runTicks_nil]
  | succ k ih =>
    intro s
    rw [List.replicate_succ, runTicks_cons, ih]
    have hstep : (s.tick 1 dDrain).soc_pct = s.soc_pct - 1/20 := by
      rw [tick_soc_noRecharge _ _ _ (by norm_num [dDrain, dWit])]
      norm_num [dDrain, dWit]
    rw [hstep]
    push_cast
    ring

/-- C7: the charge never exceeds 100 — at creation (the initial draw is
`uniform(60, 100)`) and after any sequence of ticks with admissible draws and
`dt ≥ 0` — but no lower bound is enforced: from any state there is a
sequence of ticks with admissible draws on which the recharge outcome never
fires that takes the charge below any bound `B` (in particular below 0). -/
theorem charge_upper_bound_and_unbounded_drift :
    (∀ (agv_id : String) (di : InitDraws), di.socDraw ≤ 100 →
      (AGVState.init agv_id di).soc_pct ≤ 100) ∧
    (∀ (s : AGVState) (steps : List (ℚ × TickDraws)), s.soc_pct ≤ 100 →
      (∀ p ∈ steps, 0 ≤ p.1 ∧ p.2.Valid) →
      (runTicks s steps).soc_pct ≤ 100) ∧
    (∀ (s : AGVState) (B : ℚ), ∃ steps : List (ℚ × TickDraws),
      (∀ p ∈ steps, 0 ≤ p.1 ∧ p.2.Valid ∧ 1/100 ≤ p.2.rechargeDraw) ∧
      (runTicks s steps).soc_pct < B) := by
  refine ⟨?_, ?_, ?_⟩
  · intro agv_id di h
    rw [init_soc_pct]
    exact h
  · intro s steps hs hQ
    apply runTicks_preserves (fun a => a.soc_pct ≤ 100)
      (fun p => 0 ≤ p.1 ∧ p.2.Valid) ?_ steps hQ s hs
    intro a dt d hP hq
    obtain ⟨hdt, hv⟩ := hq
    obtain ⟨_, _, _, _, _, _, _, _, hdrlo, _, _, _, _, hrv100⟩ := hv
    have hdrain : 0 ≤ d.drainDraw * dt := mul_nonneg (by linarith) hdt
    rw [tick_soc_pct]
    by_cases h1 : a.soc_pct - d.drainDraw * dt < 30
    · rw [if_pos h1]
      by_cases h2 : d.rechargeDraw < 1/100
      · rw [if_pos h2]
        exact hrv100
      · rw [if_neg h2]
        linarith
    · rw [if_neg h1]
      linarith
  · intro s B
    obtain ⟨n, hn⟩ := exists_nat_gt ((s.soc_pct - B) * 20)
    refine ⟨List.replicate n (1, dDrain), ?_, ?_⟩
    · intro p hp
      rw [List.eq_of_mem_replicate hp]
      exact ⟨by norm_num, by norm_num [TickDraws.Valid, dDrain, dWit],
        by norm_num [dDrain, dWit]⟩
    · rw [runTicks_drainSteps n s]
      linarith

/-- Witness for C7: a concrete creation draw keeps the charge at most 100,
and from the concrete state `sWit` a drain-only tick sequence reaches a
strictly negative charge. -/
theorem charge_upper_bound_and_unbounded_drift_witness :
    (AGVState.init "AGV-01" ⟨0, 0, 0, 10, 80, 123456, 0⟩).soc_pct ≤ 100 ∧
    (∃ steps : List (ℚ × TickDraws),
      (∀ p ∈ steps, 0 ≤ p.1 ∧ p.2.Valid ∧ 1/100 ≤ p.2.rechargeDraw) ∧
      (runTicks sWit steps).soc_pct < 0) :=
  ⟨charge_upper_bound_and_unbounded_drift.1 "AGV-01" ⟨0, 0, 0, 10, 80, 123456, 0⟩
      (by norm_num),
   charge_upper_bound_and_unbounded_drift.2.2 sWit 0⟩

@[simp] theorem to_doc_agv_id (s : AGVState) (now : String) :
    (s.to_doc now).agv_id = s.agv_id := rfl

theorem tickFleetAux_spec (dt : ℚ) (draws : ℕ → TickDraws) (now : String) :
    ∀ (fleet : List AGVState) (i : ℕ),
      (tickFleetAux dt draws now i fleet).1.map AGVState.agv_id =
        fleet.map AGVState.agv_id ∧
      (tickFleetAux dt draws now i fleet).2 =
        (tickFleetAux dt draws now i fleet).1.map (fun a => a.to_doc now)
  | [], i => by simp [tickFleetAux]
  | s :: rest, i => by
    obtain ⟨h1, h2⟩ := tickFleetAux_spec dt draws now rest (i + 1)
    simp [tickFleetAux, h1, h2, tick_agv_id]

/-- C9: one tick of the driver loop on a fleet of `K` vehicles hands the
publisher exactly `K` records — one per vehicle, each rendered from the
vehicle just advanced — in the fleet's list order; and the advanced fleet
keeps the same vehicles in the same order (so the order is identical on
every subsequent tick). -/
theorem batch_order_and_size (dt : ℚ) (draws : ℕ → TickDraws) (now : String)
    (fleet : List AGVState) :
    (tickFleet dt draws now fleet).2.length = fleet.length ∧
    (tickFleet dt draws now fleet).2.map Doc.agv_id = fleet.map AGVState.agv_id ∧
    (tickFleet dt draws now fleet).2 =
      (tickFleet dt draws now fleet).1.map (fun a => a.to_doc now) ∧
    (tickFleet dt draws now fleet).1.map AGVState.agv_id = fleet.map AGVState.agv_id := by
  unfold tickFleet
  obtain ⟨h1, h2⟩ := tickFleetAux_spec dt draws now fleet 0
  have hlen : (tickFleetAux dt draws now 0 fleet).1.length = fleet.length := by
    have := congrArg List.length h1
    simpa using this
  refine ⟨?_, ?_, h2, h1⟩
  · rw [h2, List.length_map, hlen]
  · rw [h2, List.map_map]
    simpa [Function.comp] using h1

/-! ### Timestamp-independence of everything but the timestamp field -/

theorem stripTs_to_doc (s : AGVState) (now1 now2 : String) :
    stripTs (s.to_doc now1) = stripTs (s.to_doc now2) := rfl

theorem tickFleetAux_now_fleet (dt : ℚ) (draws : ℕ → TickDraws)
    (now1 now2 : String) :
    ∀ (fleet : List AGVState) (i : ℕ),
      (tickFleetAux dt draws now1 i fleet).1 =
        (tickFleetAux dt draws now2 i fleet).1
  | [], _ => rfl
  | s :: rest, i => by
    simp [tickFleetAux, tickFleetAux_now_fleet dt draws now1 now2 rest (i + 1)]

theorem tickFleetAux_now_docs (dt : ℚ) (draws : ℕ → TickDraws)
    (now1 now2 : String) :
    ∀ (fleet : List AGVState) (i : ℕ),
      stripBatch (tickFleetAux dt draws now1 i fleet).2 =
        stripBatch (tickFleetAux dt draws now2 i fleet).2
  | [], _ => rfl
  | s :: rest, i => by
    have ih := tickFleetAux_now_docs dt draws now1 now2 rest (i + 1)
    simp only [tickFleetAux, stripBatch, List.map_cons] at *
    rw [ih, stripTs_to_doc _ now1 now2]

theorem tickFleetAux_now_isEmpty (dt : ℚ) (draws : ℕ → TickDraws)
    (now1 now2 : String) (fleet : List AGVState) (i : ℕ) :
    (tickFleetAux dt draws now1 i fleet).2.isEmpty =
      (tickFleetAux dt draws now2 i fleet).2.isEmpty := by
  cases fleet <;> simp [tickFleetAux]

theorem bulk_index_congr (docs1 docs2 : List Doc) (resp : NetResponse)
    (h : docs1.isEmpty = docs2.isEmpty) :
    bulk_index docs1 resp = bulk_index docs2 resp := by
  unfold bulk_index
  rw [h]

theorem simLoop_succ (dt : ℚ) (draws : ℕ → ℕ → TickDraws) (net : ℕ → NetResponse)
    (now : ℕ → String) (n t : ℕ) (sent : List (List Doc)) (fleet : List AGVState) :
    simLoop dt draws net now (n + 1) t sent fleet =
      (match bulk_index (tickFleet dt (draws t) (now t) fleet).2 (net t) with
       | Except.error e =>
         { fleet := (tickFleet dt (draws t) (now t) fleet).1, ticks := t,
           sent := sent ++ [(tickFleet dt (draws t) (now t) fleet).2], err := some e }
       | Except.ok _ => simLoop dt draws net now n (t + 1)
           (sent ++ [(tickFleet dt (draws t) (now t) fleet).2])
           (tickFleet dt (draws t) (now t) fleet).1) := rfl

theorem simLoop_now_invariance (dt : ℚ) (draws : ℕ → ℕ → TickDraws)
    (net : ℕ → NetResponse) (now1 now2 : ℕ → String) :
    ∀ (n t : ℕ) (sent1 sent2 : List (List Doc)) (fleet : List AGVState),
      sent1.map stripBatch = sent2.map stripBatch →
      (simLoop dt draws net now1 n t sent1 fleet).fleet =
        (simLoop dt draws net now2 n t sent2 fleet).fleet ∧
      (simLoop dt draws net now1 n t sent1 fleet).sent.map stripBatch =
        (simLoop dt draws net now2 n t sent2 fleet).sent.map stripBatch ∧
      (simLoop dt draws net now1 n t sent1 fleet).ticks =
        (simLoop dt draws net now2 n t sent2 fleet).ticks ∧
      (simLoop dt draws net now1 n t sent1 fleet).err =
        (simLoop dt draws net now2 n t sent2 fleet).err
  | 0, t, sent1, sent2, fleet, hsent => ⟨rfl, hsent, rfl, rfl⟩
  | Nat.succ n, t, sent1, sent2, fleet, hsent => by
    have hfleet : (tickFleet dt (draws t) (now1 t) fleet).1 =
        (tickFleet dt (draws t) (now2 t) fleet).1 :=
      tickFleetAux_now_fleet dt (draws t) (now1 t) (now2 t) fleet 0
    have hdocs : stripBatch (tickFleet dt (draws t) (now1 t) fleet).2 =
        stripBatch (tickFleet dt (draws t) (now2 t) fleet).2 :=
      tickFleetAux_now_docs dt (draws t) (now1 t) (now2 t) fleet 0
    have hempty : (tickFleet dt (draws t) (now1 t) fleet).2.isEmpty =
        (tickFleet dt (draws t) (now2 t) fleet).2.isEmpty :=
      tickFleetAux_now_isEmpty dt (draws t) (now1 t) (now2 t) fleet 0
    have hbulk := bulk_index_congr (tickFleet dt (draws t) (now1 t) fleet).2
      (tickFleet dt (draws t) (now2 t) fleet).2 (net t) hempty
    have hsent2 : (sent1 ++ [(tickFleet dt (draws t) (now1 t) fleet).2]).map stripBatch =
        (sent2 ++ [(tickFleet dt (draws t) (now2 t) fleet).2]).map stripBatch := by
      simp only [List.map_append, List.map_cons, List.map_nil, hsent, hdocs]
    rw [simLoop_succ dt draws net now1, simLoop_succ dt draws net now2, hbulk]
    cases hres : bulk_index (tickFleet dt (draws t) (now2 t) fleet).2 (net t) with
    | error e =>
      exact ⟨hfleet, hsent2, rfl, rfl⟩
    | ok u =>
      rw [hfleet]
      exact simLoop_now_invariance dt draws net now1 now2 n (t + 1) _ _ _ hsent2

/-- C8: the state evolution and the published batches are deterministic
functions of the random draw sequence: two runs of `N` loop iterations on
the same fleet, consuming identical draw sequences and seeing the same
transport outcomes but capturing different wall-clock timestamps, publish
batches that agree on every field except the capture timestamp, and end
with identical fleets, tick counters and error outcomes. -/
theorem determinism_modulo_timestamp (dt : ℚ) (draws : ℕ → ℕ → TickDraws)
    (net : ℕ → NetResponse) (now1 now2 : ℕ → String) (N : ℕ)
    (fleet : List AGVState) :
    (simLoop dt draws net now1 N 0 [] fleet).sent.map stripBatch =
      (simLoop dt draws net now2 N 0 [] fleet).sent.map stripBatch ∧
    (simLoop dt draws net now1 N 0 [] fleet).fleet =
      (simLoop dt draws net now2 N 0 [] fleet).fleet ∧
    (simLoop dt draws net now1 N 0 [] fleet).ticks =
      (simLoop dt draws net now2 N 0 [] fleet).ticks ∧
    (simLoop dt draws net now1 N 0 [] fleet).err =
      (simLoop dt draws net now2 N 0 [] fleet).err := by
  obtain ⟨h1, h2, h3, h4⟩ :=
    simLoop_now_invariance dt draws net now1 now2 N 0 [] [] fleet rfl
  exact ⟨h2, h1, h3, h4⟩

/-- C1 as stated is false: `main` has no handler around `bulk_index`, so the
exception `raise_for_status()` raises on a transport failure propagates and
terminates the run.  Concretely: with a one-vehicle fleet, a clock that
admits three loop iterations and a transport that fails, only the first
iteration executes — one batch is handed over, the tick counter stays 0,
and the run ends with the uncaught error instead of proceeding to the next
tick. -/
theorem publish_failure_counterexample :
    (simLoop 1 (fun _ _ => dWit) (fun _ => NetResponse.failure)
        (fun _ => "T") 3 0 [] [sWit]).err = some "HTTPError" ∧
    (simLoop 1 (fun _ _ => dWit) (fun _ => NetResponse.failure)
        (fun _ => "T") 3 0 [] [sWit]).sent.length = 1 ∧
    (simLoop 1 (fun _ _ => dWit) (fun _ => NetResponse.failure)
        (fun _ => "T") 3 0 [] [sWit]).ticks = 0 := by
  refine ⟨rfl, rfl, rfl⟩

/-- C1 (amended): a transport failure of the batch publish step does not
modify any vehicle's in-memory state — the loop ends with the fleet exactly
as the failing iteration's advance left it, with nothing rolled back — but
the raised error is not caught: the run terminates at once with that error,
executing no further iteration however many the clock still admitted. -/
theorem publish_failure_behavior (dt : ℚ) (draws : ℕ → ℕ → TickDraws)
    (net : ℕ → NetResponse) (now : ℕ → String) (n t : ℕ)
    (sent : List (List Doc)) (fleet : List AGVState)
    (hne : fleet ≠ []) (hfail : net t = NetResponse.failure) :
    simLoop dt draws net now (n + 1) t sent fleet =
      { fleet := (tickFleet dt (draws t) (now t) fleet).1,
        ticks := t,
        sent := sent ++ [(tickFleet dt (draws t) (now t) fleet).2],
        err := some "HTTPError" } := by
  have hlen : (tickFleet dt (draws t) (now t) fleet).2.length = fleet.length :=
    (batch_order_and_size dt (draws t) (now t) fleet).1
  have hempty : (tickFleet dt (draws t) (now t) fleet).2.isEmpty = false := by
    rcases hdocs : (tickFleet dt (draws t) (now t) fleet).2 with _ | ⟨doc, docs⟩
    · rw [hdocs] at hlen
      exact absurd (List.length_eq_zero.mp hlen.symm) hne
    · rfl
  have hfailidx : bulk_index (tickFleet dt (draws t) (now t) fleet).2 (net t) =
      Except.error "HTTPError" := by
    unfold bulk_index
    rw [hempty, hfail]
    rfl
  rw [simLoop_succ, hfailidx]

/-- Witness for the amended C1: one vehicle, a clock admitting three
iterations, failing transport. -/
theorem publish_failure_behavior_witness :
    simLoop 1 (fun _ _ => dWit) (fun _ => NetResponse.failure)
        (fun _ => "T") 3 0 [] [sWit] =
      { fleet := (tickFleet 1 (fun _ => dWit) "T" [sWit]).1,
        ticks := 0,
        sent := [] ++ [(tickFleet 1 (fun _ => dWit) "T" [sWit]).2],
        err := some "HTTPError" } :=
  publish_failure_behavior 1 (fun _ _ => dWit) (fun _ => NetResponse.failure)
    (fun _ => "T") 2 0 [] [sWit] (by simp) rfl
